import Mathlib

/-!
Shallow embedding of the doc2md document-to-Markdown converter
(src/doc2md): string and path utilities, Markdown primitives, the
file handler, and the PDF / DOCX / PPTX / auto / batch conversion
tools, together with theorems settling the specification claims.
-/

namespace Doc2md

/-! ## Character-list string utilities

Python string operations (`str.replace`, `in`, `str.strip`, `str.split`)
are embedded as functions on `List Char`, with `String` wrappers. -/

/-- Python whitespace characters recognised by `str.strip()` / `str.split()`. -/
def isPySpace (c : Char) : Bool :=
  c = ' ' || c = '\t' || c = '\n' || c = '\r' || c = '\x0b' || c = '\x0c'

/-- `s.strip()`: drop leading and trailing whitespace. -/
def pyStrip (s : String) : String :=
  String.mk (((s.toList.dropWhile isPySpace).reverse.dropWhile isPySpace).reverse)

/-- Whether `pat` occurs as a contiguous sublist of `s`
(Python `pat in s`; for `pat = []` only the empty list check differs,
matching Python where `"" in s` is always true is not needed here). -/
def containsL (pat : List Char) : List Char → Bool
  | [] => pat.isEmpty
  | c :: t => pat.isPrefixOf (c :: t) || containsL pat t

/-- Scanner for non-overlapping occurrence counting: `skip` is the number
of characters still covered by the last match. -/
def countOccGo (pat : List Char) : List Char → Nat → Nat
  | [], _ => 0
  | _ :: t, skip + 1 => countOccGo pat t skip
  | c :: t, 0 =>
    if pat ≠ [] ∧ pat.isPrefixOf (c :: t) then
      1 + countOccGo pat t (pat.length - 1)
    else countOccGo pat t 0

/-- Number of non-overlapping occurrences of `pat` in `s`, scanning left to
right (Python `s.count(pat)` for non-empty `pat`). -/
def countOccL (pat s : List Char) : Nat :=
  countOccGo pat s 0

/-- Scanner for replace-all: `skip` is the number of characters still
covered by the last match (already replaced, hence dropped). -/
def replaceAllGo (pat rep : List Char) : List Char → Nat → List Char
  | [], _ => []
  | _ :: t, skip + 1 => replaceAllGo pat rep t skip
  | c :: t, 0 =>
    if pat ≠ [] ∧ pat.isPrefixOf (c :: t) then
      rep ++ replaceAllGo pat rep t (pat.length - 1)
    else c :: replaceAllGo pat rep t 0

/-- Replace every non-overlapping occurrence of `pat` by `rep`, scanning left
to right (Python `s.replace(pat, rep)` for non-empty `pat`). -/
def replaceAllL (pat rep s : List Char) : List Char :=
  replaceAllGo pat rep s 0

/-- Replace the first occurrence of `pat` by `rep`
(Python `s.replace(pat, rep, 1)`; an empty pattern inserts `rep` in front). -/
def replaceFirstL (pat rep : List Char) (s : List Char) : List Char :=
  if pat = [] then rep ++ s
  else if pat.isPrefixOf s then rep ++ s.drop pat.length
  else
    match s with
    | [] => []
    | c :: t => c :: replaceFirstL pat rep t

/-- `String` wrapper for substring containment (Python `pat in s`). -/
def containsSub (s pat : String) : Bool :=
  containsL pat.toList s.toList

/-- `String` wrapper for replace-all (Python `s.replace(pat, rep)`). -/
def replaceAllStr (s pat rep : String) : String :=
  String.mk (replaceAllL pat.toList rep.toList s.toList)

/-- `String` wrapper for replace-first (Python `s.replace(pat, rep, 1)`). -/
def replaceFirstStr (s pat rep : String) : String :=
  String.mk (replaceFirstL pat.toList rep.toList s.toList)

/-- Token scanner: `inWord` records whether the previous character was
part of a token. -/
def countWordsGo : List Char → Bool → Nat
  | [], _ => 0
  | c :: t, inWord =>
    if isPySpace c then countWordsGo t false
    else if inWord then countWordsGo t true
    else 1 + countWordsGo t true

/-- Count of whitespace-delimited tokens (Python `len(s.split())`). -/
def countWordsL (s : List Char) : Nat :=
  countWordsGo s false

/-- `"".join`-style concatenation with a separator (Python `sep.join(parts)`). -/
def joinSep (sep : String) : List String → String
  | [] => ""
  | [a] => a
  | a :: b :: t => a ++ sep ++ joinSep sep (b :: t)

/-- `s * n` for strings (Python string repetition). -/
def dupString (s : String) (n : Nat) : String :=
  String.join (List.replicate n s)

/-- First maximal run of decimal digits in `s`, as a number
(Python `re.search(r"(\d+)", s)`). -/
def firstNumber (s : String) : Option Nat :=
  go s.toList
where
  go : List Char → Option Nat
    | [] => none
    | c :: t =>
      if c.isDigit then
        some (((c :: t.takeWhile Char.isDigit).foldl
          (fun acc d => acc * 10 + (d.toNat - '0'.toNat)) 0))
      else go t

/-- `s.startswith(pre)`. -/
def strStartsWith (s pre : String) : Bool :=
  pre.toList.isPrefixOf s.toList

/-- `s.endswith(suf)`. -/
def strEndsWith (s suf : String) : Bool :=
  suf.toList.isSuffixOf s.toList

/-- ASCII lower-casing of one character. -/
def lowerChar (c : Char) : Char :=
  if 'A' ≤ c ∧ c ≤ 'Z' then Char.ofNat (c.toNat + 32) else c

/-- `s.lower()` (ASCII). -/
def strToLower (s : String) : String :=
  String.mk (s.toList.map lowerChar)

/-- Python truthiness for an optional string argument: `None` and `""` are
both falsy. -/
def truthy : Option String → Option String
  | none => none
  | some s => if s = "" then none else some s

/-! ## Path name utilities (`pathlib.PurePath` semantics) -/

/-- The final component of a path's characters: trailing slashes are
dropped (as `pathlib` normalisation does), then the last slash-free
segment is taken. -/
def lastComponent (l : List Char) : List Char :=
  ((l.reverse.dropWhile (· == '/')).takeWhile (· ≠ '/')).reverse

/-- `Path(s).name`: the final path component. -/
def pathName (s : String) : String :=
  String.mk (lastComponent s.toList)

/-- The stem of a bare file name: the name without its final suffix.
`pathlib` takes the suffix to be `name[i:]` for `i` the last index of `'.'`,
provided `0 < i < len(name) - 1`; otherwise there is no suffix. -/
def nameStem (s : String) : String :=
  match s.toList.reverse.findIdx? (· == '.') with
  | none => s
  | some r =>
    if 1 ≤ s.toList.length - 1 - r ∧ 1 ≤ r then
      String.mk (s.toList.take (s.toList.length - 1 - r))
    else s

/-- The final suffix of a bare file name, including the dot (`Path(s).suffix`
applied to the final component). -/
def nameSuffix (s : String) : String :=
  match (pathName s).toList.reverse.findIdx? (· == '.') with
  | none => ""
  | some r =>
    if 1 ≤ (pathName s).toList.length - 1 - r ∧ 1 ≤ r then
      String.mk ((pathName s).toList.drop ((pathName s).toList.length - 1 - r))
    else ""

/-- `Path(s).stem`: stem of the final path component. -/
def pathStem (s : String) : String :=
  nameStem (pathName s)

/-- Join a directory and a file name (`out_dir / md_name` for a plain
relative name). -/
def joinPath (dir name : String) : String :=
  dir ++ "/" ++ name

/-! ## Markdown primitives (utils/markdown.py) -/

/-- `clean_text`: strip control characters (code points below 32) except
newline and tab; all other characters pass through unchanged. -/
def clean_text (s : String) : String :=
  String.mk (s.toList.filter (fun c => c = '\n' || c = '\t' || 32 ≤ c.toNat))

/-- `count_words`: number of whitespace-delimited tokens. -/
def count_words (s : String) : Nat :=
  countWordsL s.toList

/-- Escape literal pipes in a table cell (`c.replace("|", "\\|")`). -/
def escapeCell (c : String) : String :=
  replaceAllStr c "|" "\\|"

/-- Separator-row marker for one column under an optional alignment. -/
def alignMarker (a : String) : String :=
  if a = "center" then ":---:" else if a = "right" then "---:" else "---"

/-- `format_table`: pipe-delimited Markdown table with a header separator
row; pads/truncates each row to the column count; empty headers are
synthesized as empty cells; empty headers and rows yield empty output.
The `alignments` argument follows Python truthiness (an empty list acts
like `None`). -/
def format_table (headers : List String) (rows : List (List String))
    (alignments : Option (List String)) : String :=
  if headers = [] ∧ rows = [] then ""
  else
    let num_cols := if headers ≠ [] then headers.length
      else match rows with
        | r :: _ => r.length
        | [] => 0
    if num_cols = 0 then ""
    else
      let headers' := if headers = [] then List.replicate num_cols "" else headers
      let sep_parts :=
        match alignments with
        | some aligns =>
          if aligns = [] then List.replicate num_cols "---"
          else
            let base := (aligns.take num_cols).map alignMarker
            base ++ List.replicate (num_cols - base.length) "---"
        | none => List.replicate num_cols "---"
      let headerLine := "| " ++ joinSep " | " (headers'.map escapeCell) ++ " |"
      let sepLine := "| " ++ joinSep " | " sep_parts ++ " |"
      let rowLines := rows.map (fun row =>
        let padded := row ++ List.replicate (num_cols - row.length) ""
        "| " ++ joinSep " | " ((padded.take num_cols).map escapeCell) ++ " |")
      joinSep "\n" (headerLine :: sepLine :: rowLines)

/-! ## Data model (models.py) -/

/-- `ConversionMetadata`: metadata about a conversion result. -/
structure ConversionMetadata where
  source_format : String
  page_count : Option Nat := none
  slide_count : Option Nat := none
  word_count : Nat := 0
  has_images : Bool := false
  image_count : Nat := 0
  conversion_warnings : List String := []
deriving DecidableEq, Repr

/-- `ConversionResult`: result of a single file conversion. -/
structure ConversionResult where
  success : Bool
  output_path : Option String := none
  file_name : Option String := none
  source_file : String
  metadata : Option ConversionMetadata := none
  error : Option String := none
deriving DecidableEq, Repr

/-- `BatchResult`: result of a batch conversion. -/
structure BatchResult where
  results : List ConversionResult
  total : Nat
  successful : Nat
  failed : Nat
deriving DecidableEq, Repr

/-- `build_metadata` (utils/metadata.py). -/
def build_metadata (source_format : String) (page_count slide_count : Option Nat)
    (word_count : Nat) (has_images : Bool) (image_count : Nat)
    (warnings : List String) : ConversionMetadata :=
  { source_format := source_format
    page_count := page_count
    slide_count := slide_count
    word_count := word_count
    has_images := has_images
    image_count := image_count
    conversion_warnings := warnings }

/-! ## Parsed-document models for the external parsing libraries

The PDF/DOCX/PPTX parsing libraries are external collaborators; their
parsed documents are embedded as plain data, exposing exactly the
attributes the converters read. -/

/-- One parsed PDF page: extracted raw text, the length of the page's image
list, and the grids returned by table detection (cells may be `None`). -/
structure PdfPage where
  rawText : String
  imageCount : Nat
  tables : List (List (List (Option String)))
deriving DecidableEq, Repr

/-- One DOCX run: text plus formatting flags read by the converter
(tri-state flags collapse to their truthiness). -/
structure DocxRun where
  text : String
  bold : Bool
  italic : Bool
  strike : Bool
  fontName : Option String
deriving DecidableEq, Repr

/-- One `w:hyperlink` element of a DOCX paragraph: its concatenated run
text, and the relationship target when its `r:id` is present in the
part's relationships (`none` otherwise). -/
structure DocxHyperlink where
  text : String
  url : Option String
deriving DecidableEq, Repr

/-- A `w:numPr` numbering property: indent level and numbering id values. -/
structure DocxNumPr where
  ilvl : Option Int
  numId : Option String
deriving DecidableEq, Repr

/-- One DOCX paragraph. `numPr` is present when both the `w:pPr` and its
nested `w:numPr` element exist (their absences are behaviourally equal). -/
structure DocxPara where
  styleName : String
  runs : List DocxRun
  hyperlinks : List DocxHyperlink
  numPr : Option DocxNumPr
deriving DecidableEq, Repr

/-- One block-level element of a DOCX body: a paragraph, a table (its grid
of raw cell texts), or any other element kind (skipped by the walk). -/
inductive DocxBlock where
  | p (para : DocxPara)
  | tbl (rows : List (List String))
  | other
deriving DecidableEq, Repr

/-- One document relationship, as read by the image extractor: its
relationship type, target reference, and the base64 encoding of the target
part's bytes (`none` embeds the access failure swallowed by the source). -/
structure DocxRel where
  reltype : String
  targetRef : String
  blobB64 : Option String
deriving DecidableEq, Repr

/-- One document comment: author and concatenated `w:t` text. -/
structure DocxComment where
  author : String
  text : String
deriving DecidableEq, Repr

/-- A parsed DOCX document. `footnotes` carries `(id, text)` pairs in part
order; `sectionCount` is `len(doc.sections)`. -/
structure DocxDoc where
  blocks : List DocxBlock
  rels : List DocxRel
  comments : List DocxComment
  footnotes : List (Int × String)
  sectionCount : Nat
deriving DecidableEq, Repr

/-- One paragraph of a PPTX text frame: its text and indent level. -/
structure TFPara where
  text : String
  level : Nat
deriving DecidableEq, Repr

/-- The shape types the PPTX converter distinguishes. -/
inductive ShapeKind where
  | placeholder
  | group
  | chart
  | otherKind
deriving DecidableEq, Repr

/-- One PPTX shape: optional text frame (presence is `has_text_frame`),
shape type, placeholder index (`none` when `placeholder_format` is `None`),
optional table (first row and remaining rows; presence is `has_table`),
whether an `image` attribute exists, the shape name, and child shapes of a
group. -/
inductive Shape where
  | mk (textFrame : Option (List TFPara)) (kind : ShapeKind)
       (placeholderIdx : Option Nat)
       (table : Option (List String × List (List String)))
       (hasImage : Bool) (name : String) (children : List Shape)

/-- The text frame of a shape, when present. -/
def Shape.textFrame : Shape → Option (List TFPara)
  | .mk tf _ _ _ _ _ _ => tf

/-- The shape type. -/
def Shape.kind : Shape → ShapeKind
  | .mk _ k _ _ _ _ _ => k

/-- The placeholder index, when the shape has a placeholder format. -/
def Shape.placeholderIdx : Shape → Option Nat
  | .mk _ _ idx _ _ _ _ => idx

/-- The shape's table, when present. -/
def Shape.table : Shape → Option (List String × List (List String))
  | .mk _ _ _ tbl _ _ _ => tbl

/-- Whether the shape has an `image` attribute. -/
def Shape.hasImage : Shape → Bool
  | .mk _ _ _ _ img _ _ => img

/-- The shape name. -/
def Shape.name : Shape → String
  | .mk _ _ _ _ _ n _ => n

/-- The child shapes of a group shape. -/
def Shape.children : Shape → List Shape
  | .mk _ _ _ _ _ _ cs => cs

/-- One PPTX slide: its shapes, and its speaker-notes text when a notes
slide with a notes text frame exists. -/
structure Slide where
  shapes : List Shape
  notes : Option String

/-! ## The filesystem and external collaborators

`FS` packages the filesystem and library calls the converters make, so
that each converter is a pure function of an `FS` and its arguments. -/

/-- Abstract filesystem and collaborator interface. -/
structure FS where
  /-- `Path(d).resolve()` for an output directory string. -/
  resolveDir : String → String
  /-- `Path.cwd()`. -/
  cwd : String
  /-- `path.parent` of a source path. -/
  parentDir : String → String
  /-- `Path(p).resolve()` for a source file path. -/
  resolvePath : String → String
  /-- `path.exists()`. -/
  pathExists : String → Bool
  /-- `path.is_file()`. -/
  pathIsFile : String → Bool
  /-- Existence check for an output directory. -/
  dirExists : String → Bool
  /-- `os.access(dir, os.W_OK)`. -/
  dirWritable : String → Bool
  /-- Existence check for a resolved output file path. -/
  fileExists : String → Bool
  /-- `int(time.time())`. -/
  time : Nat
  /-- `tempfile.mkdtemp(prefix="doc2md_")`: the fresh directory's path. -/
  mkdtemp : String
  /-- Whether `base64.b64decode` succeeds on the given content. -/
  b64decodeOk : String → Bool
  /-- The exception message of a failing `base64.b64decode`. -/
  b64errMsg : String → String
  /-- `pymupdf.open`: the parsed pages, or the raised message. -/
  openPdf : String → Except String (List PdfPage)
  /-- `docx.Document`: the parsed document, or the raised message. -/
  openDocx : String → Except String DocxDoc
  /-- `pptx.Presentation`: the parsed slides, or the raised message. -/
  openPptx : String → Except String (List Slide)
  /-- `write_markdown`: `none` on success, or the raised message. -/
  writeErr : String → Option String
  /-- `mimetypes.guess_type(name)[0]`. -/
  guessMime : String → Option String

/-! ## File handler (utils/file_handler.py) -/

/-- `resolve_source_file`: resolve the source from either a path or base64
content, returning `(resolved_path, source_name, temp_dir_or_none)`. -/
def resolve_source_file (fs : FS)
    (file_path base64_content file_name : Option String) :
    Except String (String × String × Option String) :=
  match truthy file_path with
  | some fp =>
    let path := fs.resolvePath fp
    if fs.pathExists path = false then
      .error ("Source file not found: " ++ fp)
    else if fs.pathIsFile path = false then
      .error ("Source path is not a file: " ++ fp)
    else
      .ok (path, pathName path, none)
  | none =>
    match truthy base64_content, truthy file_name with
    | some b64, some fn =>
      if fs.b64decodeOk b64 then
        .ok (joinPath fs.mkdtemp fn, fn, some fs.mkdtemp)
      else
        .error ("Invalid base64 content: " ++ fs.b64errMsg b64)
    | _, _ =>
      .error "Must provide either 'file_path' or both 'base64_content' and 'file_name'"

/-- The output directory chosen by `resolve_output_path`: the given
directory, else the current directory for base64 inputs, else the source
file's own directory. -/
def outDirOf (fs : FS) (sourceParent : String) (output_dir : Option String)
    (is_base64 : Bool) : String :=
  match truthy output_dir with
  | some d => fs.resolveDir d
  | none => if is_base64 then fs.cwd else sourceParent

/-- The output file name before collision handling: the explicit name with
`".md"` appended when missing, else the source stem plus `".md"`. -/
def mdNameOf (source_name : String) (output_file_name : Option String) : String :=
  match truthy output_file_name with
  | some n => if strEndsWith n ".md" then n else n ++ ".md"
  | none => pathStem source_name ++ ".md"

/-- `resolve_output_path`: resolve the output `.md` path, returned as a
(directory, file name) pair. -/
def resolve_output_path (fs : FS) (source_name : String) (sourceParent : String)
    (output_dir output_file_name : Option String)
    (overwrite : Bool) (is_base64 : Bool) : Except String (String × String) :=
  let out_dir := outDirOf fs sourceParent output_dir is_base64
  if fs.dirExists out_dir = false then
    .error ("Output directory does not exist: " ++ out_dir)
  else if fs.dirWritable out_dir = false then
    .error ("Output directory is not writable: " ++ out_dir)
  else
    let md_name := mdNameOf source_name output_file_name
    if fs.fileExists (joinPath out_dir md_name) ∧ overwrite = false then
      .ok (out_dir, pathStem md_name ++ "_" ++ toString fs.time ++ ".md")
    else
      .ok (out_dir, md_name)

/-! ## PDF converter (tools/pdf.py) -/

/-- `str(c) if c else ""` on a table cell. -/
def cellStr : Option String → String
  | none => ""
  | some s => s

/-- `_extract_page_tables`: each detected grid with at least one row is
rendered through `format_table`; empty renderings are dropped. -/
def extract_page_tables (p : PdfPage) : List String :=
  p.tables.foldl (fun acc data =>
    match data with
    | [] => acc
    | h :: rest =>
      let md := format_table (h.map cellStr) (rest.map (·.map cellStr)) none
      if md ≠ "" then acc ++ [md] else acc) []

/-- `_extract_page_text`: `(clean_text(text).strip(), image_count)`. -/
def extract_page_text (p : PdfPage) : String × Nat :=
  (pyStrip (clean_text p.rawText), p.imageCount)

/-- The scanned-page warning for 1-based page `n`. -/
def scannedWarning (n : Nat) : String :=
  "Page " ++ toString n ++ " appears to be a scanned image that could not be OCR'd"

/-- The page text emitted for 1-based page `n`, before the marker is
prepended: extracted text (or the scanned-page placeholder), image
placeholders, then detected tables. -/
def pdfPageBody (n : Nat) (p : PdfPage) : String :=
  let (text0, img_count) := extract_page_text p
  let text1 :=
    if pyStrip text0 = "" ∧ img_count > 0 then
      "*[Page " ++ toString n ++ " contains a scanned image with no extractable text]*"
    else text0
  let text2 :=
    if img_count > 0 then
      text1 ++ "\n\n" ++ joinSep "\n"
        ((List.range img_count).map (fun i =>
          "![image](image_p" ++ toString n ++ "_" ++ toString (i + 1) ++ ".png)"))
    else text1
  let tables_md := extract_page_tables p
  if tables_md ≠ [] then text2 ++ "\n\n" ++ joinSep "\n\n" tables_md else text2

/-- The warnings raised for 1-based page `n`. -/
def pdfPageWarnings (n : Nat) (p : PdfPage) : List String :=
  if pyStrip (extract_page_text p).1 = "" ∧ (extract_page_text p).2 > 0 then
    [scannedWarning n]
  else []

/-- The body section built for 1-based page `n`, together with its image
count and the warnings it raises. -/
def pdfPageSection (n : Nat) (p : PdfPage) : String × Nat × List String :=
  ("<!-- Page " ++ toString n ++ " -->\n\n" ++ pdfPageBody n p,
   (extract_page_text p).2, pdfPageWarnings n p)

/-- One iteration of the page loop. -/
def pdfStep (acc : List String × Nat × List String) (ip : Nat × PdfPage) :
    List String × Nat × List String :=
  (acc.1 ++ [(pdfPageSection (ip.1 + 1) ip.2).1],
   acc.2.1 + (pdfPageSection (ip.1 + 1) ip.2).2.1,
   acc.2.2 ++ (pdfPageSection (ip.1 + 1) ip.2).2.2)

/-- The page loop of `convert_pdf_to_markdown`: sections in page order,
total image count, and accumulated warnings. -/
def pdfWalk (pages : List PdfPage) : List String × Nat × List String :=
  pages.enum.foldl pdfStep ([], 0, [])

/-- The PDF body: page sections joined by the horizontal-rule separator. -/
def pdfBody (pages : List PdfPage) : String :=
  joinSep "\n\n---\n\n" (pdfWalk pages).1

/-- The `try` body of `convert_pdf_to_markdown`, up to the success result's
fields: output path, source name, and metadata. -/
def pdfPipeline (fs : FS)
    (file_path base64_content file_name output_dir output_file_name : Option String)
    (overwrite : Bool) : Except String ((String × String) × String × ConversionMetadata) := do
  let (source_path, source_name, _temp_dir) ←
    resolve_source_file fs file_path base64_content file_name
  let is_base64 := base64_content.isSome
  let pages ← fs.openPdf source_path
  let (sections, total_images, warnings) := pdfWalk pages
  let body := joinSep "\n\n---\n\n" sections
  let out ← resolve_output_path fs source_name (fs.parentDir source_path)
    output_dir output_file_name overwrite is_base64
  match fs.writeErr (joinPath out.1 out.2) with
  | some e => .error e
  | none =>
    .ok (out, source_name,
      build_metadata "pdf" (some pages.length) none (count_words body)
        (decide (total_images > 0)) total_images warnings)

/-- The fallback source identifier of a failure result:
`file_name or (file_path or "unknown")`. -/
def fallbackSource (file_name file_path : Option String) : String :=
  ((truthy file_name).getD ((truthy file_path).getD "unknown"))

/-- `convert_pdf_to_markdown`. -/
def convert_pdf_to_markdown (fs : FS)
    (file_path base64_content file_name output_dir output_file_name : Option String)
    (overwrite : Bool) : ConversionResult :=
  match pdfPipeline fs file_path base64_content file_name output_dir
      output_file_name overwrite with
  | .ok (out, source_name, meta) =>
    { success := true
      output_path := some (joinPath out.1 out.2)
      file_name := some out.2
      source_file := source_name
      metadata := some meta }
  | .error e =>
    { success := false
      source_file := fallbackSource file_name file_path
      error := some e }

/-! ## DOCX converter (tools/docx.py) -/

/-- `_run_to_markdown`: wrap a run's text in its formatting markers. -/
def run_to_markdown (r : DocxRun) : String :=
  if r.text = "" then ""
  else
    let t := if r.bold then "**" ++ r.text ++ "**" else r.text
    let t := if r.italic then "*" ++ t ++ "*" else t
    let t := if r.strike then "~~" ++ t ++ "~~" else t
    match r.fontName with
    | some fname =>
      if fname ≠ "" ∧ containsSub (strToLower fname) "courier" then "`" ++ t ++ "`" else t
    | none => t

/-- The paragraph's inline text: assembled runs, stripped. -/
def paraText (p : DocxPara) : String :=
  pyStrip (String.join (p.runs.map run_to_markdown))

/-- The paragraph text after hyperlink substitution: for each hyperlink
whose relationship id resolves, the first occurrence of its anchor text is
replaced by a Markdown link. -/
def paraLinkedText (p : DocxPara) : String :=
  p.hyperlinks.foldl (fun t hl =>
    match hl.url with
    | some url => replaceFirstStr t hl.text ("[" ++ hl.text ++ "](" ++ url ++ ")")
    | none => t) (paraText p)

/-- `list_counters` lookup (`dict.get(key, 0)`). -/
def lookupCounter (counters : List (String × Nat)) (key : String) : Nat :=
  match counters.find? (fun kv => kv.1 = key) with
  | some kv => kv.2
  | none => 0

/-- `list_counters` update (`dict[key] = v`), preserving first-insertion
order. -/
def setCounter (counters : List (String × Nat)) (key : String) (v : Nat) :
    List (String × Nat) :=
  if (counters.find? (fun kv => kv.1 = key)).isSome then
    counters.map (fun kv => if kv.1 = key then (key, v) else kv)
  else counters ++ [(key, v)]

/-- `'#' * level`. -/
def hashes (level : Nat) : String :=
  String.mk (List.replicate level '#')

/-- `_paragraph_to_markdown`: returns the emitted Markdown line and the
updated list counters. -/
def paragraph_to_markdown (p : DocxPara) (counters : List (String × Nat)) :
    String × List (String × Nat) :=
  if paraText p = "" then ("", counters)
  else
    let text := paraLinkedText p
    if strStartsWith p.styleName "Heading" then
      let level := (firstNumber p.styleName).getD 1
      let level := min level 6
      (hashes level ++ " " ++ text, counters)
    else
      match p.numPr with
      | some np =>
        let indent_level : Int := (np.ilvl).getD 0
        let num_id := (np.numId).getD "0"
        let indent := dupString "  " indent_level.toNat
        if containsSub p.styleName "List Number" ∨ ¬ containsSub p.styleName "List Bullet" then
          let key := num_id ++ "_" ++ toString indent_level
          let c := lookupCounter counters key + 1
          (indent ++ toString c ++ ". " ++ text, setCounter counters key c)
        else
          (indent ++ "- " ++ text, counters)
      | none =>
        if containsSub p.styleName "List Bullet" then ("- " ++ text, counters)
        else if containsSub p.styleName "List Number" then
          let key := "style_" ++ p.styleName
          let c := lookupCounter counters key + 1
          (toString c ++ ". " ++ text, setCounter counters key c)
        else (text, counters)

/-- `_table_to_markdown`: first row as headers, remaining rows as data,
each cell stripped then cleaned. -/
def docx_table_to_markdown (rows : List (List String)) : String :=
  match rows with
  | [] => ""
  | r0 :: rest =>
    format_table (r0.map (fun c => clean_text (pyStrip c)))
      (rest.map (·.map (fun c => clean_text (pyStrip c)))) none

/-- The body walk of `convert_docx_to_markdown`: paragraphs and tables in
document order; an empty paragraph appends one empty section unless the
previous section is already empty. -/
def docxWalkBlocks (blocks : List DocxBlock) : List String :=
  (blocks.foldl (fun (acc : List String × List (String × Nat)) b =>
    match b with
    | .p para =>
      let (md, counters) := paragraph_to_markdown para acc.2
      if md ≠ "" then (acc.1 ++ [md], counters)
      else if acc.1 ≠ [] ∧ acc.1.getLast? ≠ some "" then (acc.1 ++ [""], counters)
      else (acc.1, counters)
    | .tbl rows =>
      let md := docx_table_to_markdown rows
      if md ≠ "" then (acc.1 ++ [md], acc.2) else acc
    | .other => acc) ([], [])).1

/-- `Path(target_ref).suffix.lstrip(".")`. -/
def refExt (targetRef : String) : String :=
  String.mk ((nameSuffix targetRef).toList.dropWhile (· == '.'))

/-- `_extract_images`: placeholders for each relationship whose type
contains "image", and the image count. -/
def extract_images (rels : List DocxRel) : List String × Nat :=
  rels.foldl (fun (acc : List String × Nat) rel =>
    if containsSub rel.reltype "image" then
      let count := acc.2 + 1
      let ph :=
        match rel.blobB64 with
        | some b64 =>
          let ext := refExt rel.targetRef
          if ext ∈ ["png", "jpg", "jpeg", "gif", "bmp", "svg"] then
            "![embedded image " ++ toString count ++ "](data:image/" ++ ext ++
              ";base64," ++ b64 ++ ")"
          else
            "![embedded image " ++ toString count ++ "](image_" ++ toString count ++
              "." ++ ext ++ ")"
        | none =>
          "![embedded image " ++ toString count ++ "](image_" ++ toString count ++ ".png)"
      (acc.1 ++ [ph], count)
    else acc) ([], 0)

/-- `_extract_comments`: an HTML-comment line per document comment with
non-empty text. -/
def extract_comments (cs : List DocxComment) : List String :=
  cs.foldl (fun acc c =>
    if c.text ≠ "" then
      acc ++ ["<!-- Comment (" ++ c.author ++ "): " ++ c.text ++ " -->"]
    else acc) []

/-- `_extract_footnotes`: keep `(id, text)` pairs with positive id and
non-empty text; a repeated id overwrites its earlier text in place. -/
def extract_footnotes (fns : List (Int × String)) : List (Int × String) :=
  fns.foldl (fun acc idt =>
    if idt.1 > 0 ∧ idt.2 ≠ "" then
      if (acc.find? (fun kv => kv.1 = idt.1)).isSome then
        acc.map (fun kv => if kv.1 = idt.1 then idt else kv)
      else acc ++ [idt]
    else acc) []

/-- All body sections of a DOCX conversion, in emission order. -/
def docxSections (d : DocxDoc) : List String :=
  let s1 := docxWalkBlocks d.blocks
  let (img_placeholders, _img_count) := extract_images d.rels
  let s2 := if img_placeholders ≠ [] then
      s1 ++ ["\n## Embedded Images\n"] ++ img_placeholders
    else s1
  let comments := extract_comments d.comments
  let s3 := if comments ≠ [] then s2 ++ [""] ++ comments else s2
  let fns := extract_footnotes d.footnotes
  if fns ≠ [] then
    s3 ++ ["\n## Footnotes\n"] ++
      fns.map (fun idt => "[^" ++ toString idt.1 ++ "]: " ++ idt.2)
  else s3

/-- Four newlines: the pattern the blank-line collapsing loop rewrites. -/
def nl4 : List Char := ['\n', '\n', '\n', '\n']

/-- Three newlines: the collapsing loop's replacement. -/
def nl3 : List Char := ['\n', '\n', '\n']

/-- The `while "\n\n\n\n" in body_text` collapsing loop, with explicit
fuel; each iteration strictly shortens the text, so fuel equal to the
text's length suffices. -/
def collapseBlank : Nat → List Char → List Char
  | 0, s => s
  | f + 1, s =>
    if containsL nl4 s then collapseBlank f (replaceAllL nl4 nl3 s) else s

/-- The DOCX body text after blank-line collapsing, as a character list. -/
def docxBodyChars (d : DocxDoc) : List Char :=
  let raw := (joinSep "\n\n" (docxSections d)).toList
  collapseBlank raw.length raw

/-- The DOCX body text after blank-line collapsing. -/
def docxBody (d : DocxDoc) : String :=
  String.mk (docxBodyChars d)

/-- The `try` body of `convert_docx_to_markdown`, up to the success
result's fields. -/
def docxPipeline (fs : FS)
    (file_path base64_content file_name output_dir output_file_name : Option String)
    (overwrite : Bool) : Except String ((String × String) × String × ConversionMetadata) := do
  let (source_path, source_name, _temp_dir) ←
    resolve_source_file fs file_path base64_content file_name
  let is_base64 := base64_content.isSome
  let d ← fs.openDocx source_path
  let body_text := docxBody d
  let (_img_placeholders, img_count) := extract_images d.rels
  let out ← resolve_output_path fs source_name (fs.parentDir source_path)
    output_dir output_file_name overwrite is_base64
  match fs.writeErr (joinPath out.1 out.2) with
  | some e => .error e
  | none =>
    .ok (out, source_name,
      build_metadata "docx" (some d.sectionCount) none (count_words body_text)
        (decide (img_count > 0)) img_count [])

/-- `convert_docx_to_markdown`. -/
def convert_docx_to_markdown (fs : FS)
    (file_path base64_content file_name output_dir output_file_name : Option String)
    (overwrite : Bool) : ConversionResult :=
  match docxPipeline fs file_path base64_content file_name output_dir
      output_file_name overwrite with
  | .ok (out, source_name, meta) =>
    { success := true
      output_path := some (joinPath out.1 out.2)
      file_name := some out.2
      source_file := source_name
      metadata := some meta }
  | .error e =>
    { success := false
      source_file := fallbackSource file_name file_path
      error := some e }

/-! ## PPTX converter (tools/pptx.py) -/

/-- `text_frame.text`: paragraph texts joined by newlines. -/
def tfText (tf : List TFPara) : String :=
  joinSep "\n" (tf.map (·.text))

/-- The text of a shape's text frame (empty when absent). -/
def shapeTFText (s : Shape) : String :=
  match s.textFrame with
  | some tf => tfText tf
  | none => ""

/-- `_extract_text_frame`: one line per non-empty paragraph; indent level
above zero renders as an indented bullet. -/
def extract_text_frame (tf : List TFPara) : List String :=
  tf.foldl (fun acc para =>
    let text := pyStrip para.text
    if text = "" then acc
    else
      let indent := dupString "  " para.level
      if para.level > 0 then acc ++ [indent ++ "- " ++ text]
      else acc ++ [text]) []

/-- `_shape_to_markdown`: Markdown lines for one shape, threading the
image counter; group shapes recurse into their children. -/
def shapeToMarkdown (s : Shape) (ctr : Nat) : List String × Nat :=
  match s with
  | .mk tf kind _ table hasImage name children =>
    let lines :=
      match tf with
      | some t => extract_text_frame t
      | none => []
    let lines :=
      match table with
      | some tbl =>
        let md := format_table (tbl.1.map (fun c => clean_text (pyStrip c)))
          (tbl.2.map (·.map (fun c => clean_text (pyStrip c)))) none
        if md ≠ "" then lines ++ [md] else lines
      | none => lines
    let (lines, ctr) :=
      if hasImage then
        let ctr := ctr + 1
        let desc := if name ≠ "" then name else "image " ++ toString ctr
        (lines ++ ["![" ++ desc ++ "](image_" ++ toString ctr ++ ".png)"], ctr)
      else (lines, ctr)
    let (lines, ctr) :=
      if kind = .group then
        children.attach.foldl (fun (acc : List String × Nat) ch =>
          let (ls, c) := shapeToMarkdown ch.1 acc.2
          (acc.1 ++ ls, c)) (lines, ctr)
      else (lines, ctr)
    let lines :=
      if kind = .chart then
        lines ++ ["*[Chart: " ++ (if name ≠ "" then name else "unnamed chart") ++ "]*"]
      else lines
    (lines, ctr)
termination_by s
decreasing_by
  have := List.sizeOf_lt_of_mem ch.2
  simp only [Shape.mk.sizeOf_spec]
  omega

/-- Whether a shape is the title-placeholder candidate of the first title
scan: a text-frame placeholder with placeholder index 0. -/
def isTitlePlaceholder (s : Shape) : Bool :=
  s.textFrame.isSome && s.kind == .placeholder && s.placeholderIdx == some 0

/-- Whether the body loop skips a shape: it has a text frame and a
placeholder format with index 0. -/
def isSkipped (s : Shape) : Bool :=
  s.textFrame.isSome && s.placeholderIdx == some 0

/-- The first title scan: the stripped text of the first index-0
text-frame placeholder, or empty when there is none. -/
def slideTitle0 (shapes : List Shape) : String :=
  match shapes.find? isTitlePlaceholder with
  | some s => pyStrip (shapeTFText s)
  | none => ""

/-- The fallback scan: the stripped text of the first shape with a
non-empty text frame, or empty. -/
def fallbackTitle (shapes : List Shape) : String :=
  match shapes.find? (fun s => s.textFrame.isSome && pyStrip (shapeTFText s) ≠ "") with
  | some s => pyStrip (shapeTFText s)
  | none => ""

/-- The slide title: the first scan's result, else the fallback scan's. -/
def slideTitle (shapes : List Shape) : String :=
  if slideTitle0 shapes = "" then fallbackTitle shapes else slideTitle0 shapes

/-- The H2 heading emitted for 1-based slide `n`. -/
def slideHeader (n : Nat) (title : String) : String :=
  if title ≠ "" then "## Slide " ++ toString n ++ ": " ++ title
  else "## Slide " ++ toString n

/-- One iteration of the body loop for a non-skipped shape: its lines are
appended followed by one empty line (none when it produced no lines), and
the image counter advances. -/
def slideStep (acc : List String × Nat) (s : Shape) : List String × Nat :=
  (if (shapeToMarkdown s acc.2).1 ≠ [] then acc.1 ++ (shapeToMarkdown s acc.2).1 ++ [""]
   else acc.1,
   (shapeToMarkdown s acc.2).2)

/-- The body loop over a slide's shapes: skipped shapes are dropped, each
contributing shape's lines are followed by one empty line. -/
def slideBody (shapes : List Shape) (ctr : Nat) : List String × Nat :=
  shapes.foldl (fun acc s => if isSkipped s then acc else slideStep acc s) ([], ctr)

/-- The speaker-notes lines appended to a slide's lines. -/
def notesLines (slide : Slide) : List String :=
  match slide.notes with
  | some n =>
    let notes := pyStrip n
    if notes ≠ "" then ["> **Speaker Notes:** " ++ notes, ""] else []
  | none => []

/-- The section emitted for 1-based slide `n`, with the updated image
counter. -/
def processSlide (n : Nat) (slide : Slide) (ctr : Nat) : String × Nat :=
  let title := slideTitle slide.shapes
  let header := slideHeader n title
  let (body_lines, ctr) := slideBody slide.shapes ctr
  let lines := [header, ""] ++ body_lines ++ notesLines slide
  (joinSep "\n" lines, ctr)

/-- The slide loop of `convert_pptx_to_markdown`: sections in slide order
and the final image counter (equal to the total image count). -/
def pptxWalk (slides : List Slide) : List String × Nat :=
  slides.enum.foldl (fun (acc : List String × Nat) isl =>
    let (sec, c) := processSlide (isl.1 + 1) isl.2 acc.2
    (acc.1 ++ [sec], c)) ([], 0)

/-- The PPTX body: slide sections joined by blank lines. -/
def pptxBody (slides : List Slide) : String :=
  joinSep "\n\n" (pptxWalk slides).1

/-- The `try` body of `convert_pptx_to_markdown`, up to the success
result's fields. -/
def pptxPipeline (fs : FS)
    (file_path base64_content file_name output_dir output_file_name : Option String)
    (overwrite : Bool) : Except String ((String × String) × String × ConversionMetadata) := do
  let (source_path, source_name, _temp_dir) ←
    resolve_source_file fs file_path base64_content file_name
  let is_base64 := base64_content.isSome
  let slides ← fs.openPptx source_path
  let (sections, total_images) := pptxWalk slides
  let body := joinSep "\n\n" sections
  let out ← resolve_output_path fs source_name (fs.parentDir source_path)
    output_dir output_file_name overwrite is_base64
  match fs.writeErr (joinPath out.1 out.2) with
  | some e => .error e
  | none =>
    .ok (out, source_name,
      build_metadata "pptx" none (some slides.length) (count_words body)
        (decide (total_images > 0)) total_images [])

/-- `convert_pptx_to_markdown`. -/
def convert_pptx_to_markdown (fs : FS)
    (file_path base64_content file_name output_dir output_file_name : Option String)
    (overwrite : Bool) : ConversionResult :=
  match pptxPipeline fs file_path base64_content file_name output_dir
      output_file_name overwrite with
  | .ok (out, source_name, meta) =>
    { success := true
      output_path := some (joinPath out.1 out.2)
      file_name := some out.2
      source_file := source_name
      metadata := some meta }
  | .error e =>
    { success := false
      source_file := fallbackSource file_name file_path
      error := some e }

/-! ## Auto-router (tools/auto.py) -/

/-- `MIME_MAP` lookup. -/
def mimeMap (mt : String) : Option String :=
  if mt = "application/pdf" then some "pdf"
  else if mt = "application/vnd.openxmlformats-officedocument.wordprocessingml.document" then
    some "docx"
  else if mt = "application/vnd.openxmlformats-officedocument.presentationml.presentation" then
    some "pptx"
  else none

/-- `EXTENSION_MAP` lookup. -/
def extMap (ext : String) : Option String :=
  if ext = ".pdf" then some "pdf"
  else if ext = ".docx" then some "docx"
  else if ext = ".pptx" then some "pptx"
  else none

/-- `_detect_format`: declared MIME type, then the lowercase extension of
`file_name or file_path`, then a best-effort MIME guess from the name. -/
def detect_format (fs : FS) (file_path file_name mime_type : Option String) :
    Option String :=
  let byMime :=
    match truthy mime_type with
    | some mt => mimeMap mt
    | none => none
  match byMime with
  | some f => some f
  | none =>
    match (truthy file_name).orElse (fun _ => truthy file_path) with
    | some name =>
      match extMap (strToLower (nameSuffix name)) with
      | some f => some f
      | none =>
        match fs.guessMime name with
        | some guessed => mimeMap guessed
        | none => none
    | none => none

/-- `convert_auto`: dispatch on the detected format, or fail naming the
unsupported source. -/
def convert_auto (fs : FS)
    (file_path base64_content file_name mime_type output_dir output_file_name : Option String)
    (overwrite : Bool) : ConversionResult :=
  match detect_format fs file_path file_name mime_type with
  | none =>
    let source := fallbackSource file_name file_path
    { success := false
      source_file := source
      error := some ("Unsupported file type. Supported formats: PDF, DOCX, PPTX. File: "
        ++ source) }
  | some fmt =>
    if fmt = "pdf" then
      convert_pdf_to_markdown fs file_path base64_content file_name output_dir
        output_file_name overwrite
    else if fmt = "docx" then
      convert_docx_to_markdown fs file_path base64_content file_name output_dir
        output_file_name overwrite
    else
      convert_pptx_to_markdown fs file_path base64_content file_name output_dir
        output_file_name overwrite

/-! ## Batch runner (tools/batch.py) -/

/-- The body of the batch loop: append the item's result and tally it. -/
def batchStep (fs : FS) (output_dir : Option String) (overwrite : Bool)
    (acc : List ConversionResult × Nat × Nat) (fp : String) :
    List ConversionResult × Nat × Nat :=
  let result := convert_auto fs (some fp) none none none output_dir none overwrite
  (acc.1 ++ [result],
   if result.success then acc.2.1 + 1 else acc.2.1,
   if result.success then acc.2.2 else acc.2.2 + 1)

/-- `batch_convert`: sequential conversion of each path via the
auto-router, tallying successes and failures. -/
def batch_convert (fs : FS) (file_paths : List String)
    (output_dir : Option String) (overwrite : Bool) : BatchResult :=
  let acc := file_paths.foldl (batchStep fs output_dir overwrite) ([], 0, 0)
  { results := acc.1
    total := file_paths.length
    successful := acc.2.1
    failed := acc.2.2 }

/-! ## Theorems -/

/-- The success/error shape invariant claimed for `ConversionResult`. -/
def ResultInvariant (r : ConversionResult) : Prop :=
  (r.success = true ↔ r.output_path.isSome ∧ r.error = none) ∧
  (r.success = false ↔ r.error.isSome ∧ r.output_path = none)

lemma resultInvariant_pdf (fs : FS) (fp b64 fn od ofn : Option String) (ow : Bool) :
    ResultInvariant (convert_pdf_to_markdown fs fp b64 fn od ofn ow) := by
  rcases h : pdfPipeline fs fp b64 fn od ofn ow with e | ⟨out, sn, meta⟩ <;>
    simp [convert_pdf_to_markdown, h, ResultInvariant]

lemma resultInvariant_docx (fs : FS) (fp b64 fn od ofn : Option String) (ow : Bool) :
    ResultInvariant (convert_docx_to_markdown fs fp b64 fn od ofn ow) := by
  rcases h : docxPipeline fs fp b64 fn od ofn ow with e | ⟨out, sn, meta⟩ <;>
    simp [convert_docx_to_markdown, h, ResultInvariant]

lemma resultInvariant_pptx (fs : FS) (fp b64 fn od ofn : Option String) (ow : Bool) :
    ResultInvariant (convert_pptx_to_markdown fs fp b64 fn od ofn ow) := by
  rcases h : pptxPipeline fs fp b64 fn od ofn ow with e | ⟨out, sn, meta⟩ <;>
    simp [convert_pptx_to_markdown, h, ResultInvariant]

lemma resultInvariant_auto (fs : FS) (fp b64 fn mt od ofn : Option String) (ow : Bool) :
    ResultInvariant (convert_auto fs fp b64 fn mt od ofn ow) := by
  unfold convert_auto
  rcases detect_format fs fp fn mt with _ | fmt
  · simp [ResultInvariant]
  · by_cases h1 : fmt = "pdf"
    · simp only [h1, if_true]
      exact resultInvariant_pdf fs fp b64 fn od ofn ow
    · by_cases h2 : fmt = "docx"
      · simp only [h1, h2, if_false, if_true]
        exact resultInvariant_docx fs fp b64 fn od ofn ow
      · simp only [h1, h2, if_false]
        exact resultInvariant_pptx fs fp b64 fn od ofn ow

/-- C1: every result returned by the pdf, docx, pptx, and auto converters
satisfies: `success = true` iff `output_path` is set and `error` unset, and
`success = false` iff `error` is set and `output_path` unset. -/
theorem conversion_result_success_invariant (fs : FS)
    (fp b64 fn mt od ofn : Option String) (ow : Bool) :
    ResultInvariant (convert_pdf_to_markdown fs fp b64 fn od ofn ow) ∧
    ResultInvariant (convert_docx_to_markdown fs fp b64 fn od ofn ow) ∧
    ResultInvariant (convert_pptx_to_markdown fs fp b64 fn od ofn ow) ∧
    ResultInvariant (convert_auto fs fp b64 fn mt od ofn ow) :=
  ⟨resultInvariant_pdf fs fp b64 fn od ofn ow,
   resultInvariant_docx fs fp b64 fn od ofn ow,
   resultInvariant_pptx fs fp b64 fn od ofn ow,
   resultInvariant_auto fs fp b64 fn mt od ofn ow⟩

lemma batch_foldl_spec (fs : FS) (od : Option String) (ow : Bool) (l : List String) :
    ∀ acc : List ConversionResult × Nat × Nat,
      (l.foldl (batchStep fs od ow) acc).1 =
        acc.1 ++ l.map (fun fp => convert_auto fs (some fp) none none none od none ow) ∧
      (l.foldl (batchStep fs od ow) acc).2.1 + (l.foldl (batchStep fs od ow) acc).2.2 =
        acc.2.1 + acc.2.2 + l.length := by
  induction l with
  | nil => intro acc; simp
  | cons fp t ih =>
    intro acc
    rw [List.foldl_cons]
    obtain ⟨ih1, ih2⟩ := ih (batchStep fs od ow acc fp)
    refine ⟨?_, ?_⟩
    · rw [ih1]
      simp [batchStep, List.append_assoc]
    · rw [ih2]
      simp only [batchStep, List.length_cons]
      by_cases h : (convert_auto fs (some fp) none none none od none ow).success <;>
        simp [h] <;> omega

/-- C2: `batch_convert` returns one result per input, in input order, with
`len(results) = total = successful + failed`; no input after a failing one
is skipped (the result list is exactly the map of the auto-converter over
the inputs). -/
theorem batch_convert_invariant (fs : FS) (fps : List String)
    (od : Option String) (ow : Bool) :
    (batch_convert fs fps od ow).results =
      fps.map (fun fp => convert_auto fs (some fp) none none none od none ow) ∧
    (batch_convert fs fps od ow).results.length = (batch_convert fs fps od ow).total ∧
    (batch_convert fs fps od ow).total = fps.length ∧
    (batch_convert fs fps od ow).successful + (batch_convert fs fps od ow).failed =
      (batch_convert fs fps od ow).total := by
  obtain ⟨h1, h2⟩ := batch_foldl_spec fs od ow fps ([], 0, 0)
  have hres : (batch_convert fs fps od ow).results =
      fps.map (fun fp => convert_auto fs (some fp) none none none od none ow) := by
    simpa [batch_convert] using h1
  refine ⟨hres, ?_, rfl, ?_⟩
  · rw [hres]
    simp [batch_convert]
  · simpa [batch_convert] using h2

/-- C7: with `overwrite = true`, the resolved output path does not depend
on which output files already exist or on the clock, so resolving twice
for the same source and arguments (the second time after the first write)
yields the same path. -/
theorem resolve_output_overwrite_idempotent (fs1 fs2 : FS) (sn sp : String)
    (od ofn : Option String) (b64 : Bool)
    (hdir : fs1.resolveDir = fs2.resolveDir) (hcwd : fs1.cwd = fs2.cwd)
    (hex : fs1.dirExists = fs2.dirExists) (hw : fs1.dirWritable = fs2.dirWritable) :
    resolve_output_path fs1 sn sp od ofn true b64 =
      resolve_output_path fs2 sn sp od ofn true b64 := by
  unfold resolve_output_path outDirOf
  rw [hdir, hcwd, hex, hw]
  simp

/-- A filesystem state before a first conversion writes `doc.md`. -/
def fsBase : FS :=
  ⟨id, "/cwd", (fun _ => "/src"), id, (fun _ => true), (fun _ => true),
   (fun _ => true), (fun _ => true), (fun _ => false), 1700000000, "/tmp/doc2md_a",
   (fun _ => true), (fun _ => "pad"), (fun _ => .error "no pdf"),
   (fun _ => .error "no docx"), (fun _ => .error "no pptx"), (fun _ => none),
   (fun _ => none)⟩

/-- The filesystem after that write: the output file now exists and the
clock has advanced. -/
def fsAfter : FS :=
  { fsBase with fileExists := fun _ => true, time := 1700000123 }

/-- Witness for C7 at a concrete source, before and after the first write. -/
theorem resolve_output_overwrite_idempotent_witness :
    resolve_output_path fsBase "doc.pdf" "/src" none none true false =
      resolve_output_path fsAfter "doc.pdf" "/src" none none true false :=
  resolve_output_overwrite_idempotent fsBase fsAfter "doc.pdf" "/src" none none false
    rfl rfl rfl rfl

lemma joinSep_head_length (sep h : String) (t : List String) :
    h.length ≤ (joinSep sep (h :: t)).length := by
  cases t with
  | nil => simp [joinSep]
  | cons b t =>
    simp only [joinSep, String.length_append]
    omega

/-- C10 counterexample: with empty headers and the non-empty rows list
`[[]]` (whose first row is empty), `format_table` returns the empty
string, not a non-empty table. -/
theorem format_table_empty_first_row : format_table [] [[]] none = "" := by decide

/-- C10 (amended): with empty headers and a non-empty rows list whose
first row is non-empty, the result is a non-empty table whose column
count is the first row's length, with a synthesized header row of empty
cells, a separator row, and each row padded/truncated to that width. -/
theorem format_table_empty_headers (r0 : List String) (rs : List (List String))
    (h : r0 ≠ []) :
    format_table [] (r0 :: rs) none =
      joinSep "\n"
        (("| " ++ joinSep " | " (List.replicate r0.length "") ++ " |") ::
         ("| " ++ joinSep " | " (List.replicate r0.length "---") ++ " |") ::
         (r0 :: rs).map (fun row =>
           "| " ++ joinSep " | "
             (((row ++ List.replicate (r0.length - row.length) "").take r0.length).map
               escapeCell) ++ " |")) ∧
    format_table [] (r0 :: rs) none ≠ "" := by
  have hlen : r0.length ≠ 0 := fun hz => h (List.length_eq_zero.mp hz)
  have hesc : escapeCell "" = "" := by decide
  have heq : format_table [] (r0 :: rs) none =
      joinSep "\n"
        (("| " ++ joinSep " | " (List.replicate r0.length "") ++ " |") ::
         ("| " ++ joinSep " | " (List.replicate r0.length "---") ++ " |") ::
         (r0 :: rs).map (fun row =>
           "| " ++ joinSep " | "
             (((row ++ List.replicate (r0.length - row.length) "").take r0.length).map
               escapeCell) ++ " |")) := by
    simp [format_table, hlen, List.map_replicate, hesc]
  refine ⟨heq, ?_⟩
  rw [heq]
  intro hempty
  have hle := joinSep_head_length "\n"
    ("| " ++ joinSep " | " (List.replicate r0.length "") ++ " |")
    (("| " ++ joinSep " | " (List.replicate r0.length "---") ++ " |") ::
     (r0 :: rs).map (fun row =>
       "| " ++ joinSep " | "
         (((row ++ List.replicate (r0.length - row.length) "").take r0.length).map
           escapeCell) ++ " |"))
  rw [hempty] at hle
  simp [String.length_append] at hle
  exact absurd hle.1.1 (by decide)

/-- Witness for C10 (amended) at a concrete one-column table. -/
theorem format_table_empty_headers_witness :
    format_table [] [["x"], ["y", "z"]] none =
      joinSep "\n"
        (("| " ++ joinSep " | " (List.replicate 1 "") ++ " |") ::
         ("| " ++ joinSep " | " (List.replicate 1 "---") ++ " |") ::
         [["x"], ["y", "z"]].map (fun row =>
           "| " ++ joinSep " | "
             (((row ++ List.replicate (1 - row.length) "").take 1).map escapeCell) ++
             " |")) ∧
    format_table [] [["x"], ["y", "z"]] none ≠ "" :=
  format_table_empty_headers ["x"] [["y", "z"]] (by decide)

/-- The `Heading 12`-styled paragraph refuting the first-digit reading. -/
def heading12Para : DocxPara :=
  ⟨"Heading 12", [⟨"T", false, false, false, none⟩], [], none⟩

/-- C5 counterexample: for style name `"Heading 12"` the first digit is 1,
so the claim predicts the level-1 line `"# T"`; the code parses the whole
number 12 and caps it at 6, emitting `"###### T"`. -/
theorem docx_heading_first_digit_refuted :
    (paragraph_to_markdown heading12Para []).1 = "###### T" ∧
    (paragraph_to_markdown heading12Para []).1 ≠ "# T" := by decide

/-- C5 (amended): a paragraph whose style name starts with `"Heading"` and
whose assembled text is non-empty emits an ATX heading whose level is the
first maximal digit run of the style name read as a number (1 when absent),
capped above at 6 (with no lower clamp), followed by the paragraph text;
the list counters are unchanged. -/
theorem docx_heading_level (p : DocxPara) (counters : List (String × Nat))
    (hstyle : strStartsWith p.styleName "Heading" = true)
    (htext : paraText p ≠ "") :
    (paragraph_to_markdown p counters).1 =
      hashes (min ((firstNumber p.styleName).getD 1) 6) ++ " " ++ paraLinkedText p ∧
    (paragraph_to_markdown p counters).2 = counters := by
  unfold paragraph_to_markdown
  simp [htext, hstyle]

/-- The `Heading 1`-styled paragraph of the specification's example. -/
def heading1Para : DocxPara :=
  ⟨"Heading 1", [⟨"Test Document", false, false, false, none⟩], [], none⟩

/-- Witness for C5 (amended): a `Heading 1`-styled paragraph
"Test Document" yields the line `# Test Document`. -/
theorem docx_heading_level_witness :
    (paragraph_to_markdown heading1Para []).1 = "# Test Document" := by
  have h := (docx_heading_level heading1Para [] (by decide) (by decide)).1
  rw [h]
  decide

/-- A filesystem whose path resolution absolutises relative paths, as
`Path.resolve()` does against a current directory of `/home/user`. -/
def fsRel : FS :=
  { fsBase with resolvePath := fun p => "/home/user/" ++ p }

/-- C8 counterexample: for the relative path `"doc.pdf"` the source is
returned as the resolved absolute path `"/home/user/doc.pdf"`, not as the
given path unchanged. -/
theorem resolve_source_path_not_unchanged :
    resolve_source_file fsRel (some "doc.pdf") none none =
      .ok ("/home/user/doc.pdf", "doc.pdf", none) ∧
    ("/home/user/doc.pdf" : String) ≠ "doc.pdf" := by
  exact ⟨rfl, by decide⟩

/-- C8 (amended): `resolve_source_file` fails when a given file path does
not exist or is not a regular file (checked on the resolved path); on
success it returns the resolved path with that path's base name and no
temp dir; it fails with the invalid-request message when neither a file
path nor the base64+name pair is supplied; and when both modes are
supplied the file path takes precedence (the result ignores the base64
arguments entirely). -/
theorem resolve_source_contract (fs : FS) (fp b64c fn : Option String) :
    (∀ p, truthy fp = some p → fs.pathExists (fs.resolvePath p) = false →
      resolve_source_file fs fp b64c fn = .error ("Source file not found: " ++ p)) ∧
    (∀ p, truthy fp = some p → fs.pathExists (fs.resolvePath p) = true →
      fs.pathIsFile (fs.resolvePath p) = false →
      resolve_source_file fs fp b64c fn = .error ("Source path is not a file: " ++ p)) ∧
    (∀ p, truthy fp = some p → fs.pathExists (fs.resolvePath p) = true →
      fs.pathIsFile (fs.resolvePath p) = true →
      resolve_source_file fs fp b64c fn =
        .ok (fs.resolvePath p, pathName (fs.resolvePath p), none)) ∧
    (truthy fp = none → (truthy b64c = none ∨ truthy fn = none) →
      resolve_source_file fs fp b64c fn =
        .error "Must provide either 'file_path' or both 'base64_content' and 'file_name'") ∧
    (∀ p, truthy fp = some p →
      resolve_source_file fs fp b64c fn = resolve_source_file fs fp none none) := by
  refine ⟨?_, ?_, ?_, ?_, ?_⟩
  · intro p hp hex
    simp [resolve_source_file, hp, hex]
  · intro p hp hex hfile
    simp [resolve_source_file, hp, hex, hfile]
  · intro p hp hex hfile
    simp [resolve_source_file, hp, hex, hfile]
  · intro hfp hrest
    rcases hrest with hb | hf
    · simp [resolve_source_file, hfp, hb]
    · cases htb : truthy b64c <;> simp [resolve_source_file, hfp, hf, htb]
  · intro p hp
    simp [resolve_source_file, hp]

/-- Witness for C8 (amended): with both source modes supplied, the file
path wins and the resolved path and its base name are returned. -/
theorem resolve_source_contract_witness :
    resolve_source_file fsRel (some "doc.pdf") (some "QUJD") (some "ignored.pdf") =
      .ok ("/home/user/doc.pdf", "doc.pdf", none) := by
  have h := (resolve_source_contract fsRel (some "doc.pdf") (some "QUJD")
    (some "ignored.pdf")).2.2.1 "doc.pdf" (by decide) rfl rfl
  rw [h]
  rfl

lemma dropWhile_eq_self_of_all {α} (p : α → Bool) (l : List α)
    (h : ∀ x ∈ l, p x = false) : l.dropWhile p = l := by
  cases l with
  | nil => rfl
  | cons a t =>
    rw [List.dropWhile_cons]
    simp [h a (by simp)]

lemma takeWhile_eq_self_of_all {α} (p : α → Bool) (l : List α)
    (h : ∀ x ∈ l, p x = true) : l.takeWhile p = l := by
  induction l with
  | nil => rfl
  | cons a t ih =>
    rw [List.takeWhile_cons]
    simp only [h a (by simp), if_true]
    rw [ih (fun x hx => h x (by simp [hx]))]

lemma lastComponent_no_slash (l : List Char) (h : '/' ∉ l) :
    lastComponent l = l := by
  unfold lastComponent
  have h1 : l.reverse.dropWhile (· == '/') = l.reverse := by
    apply dropWhile_eq_self_of_all
    intro x hx
    simp only [List.mem_reverse] at hx
    have hne : x ≠ '/' := fun he => h (he ▸ hx)
    simp [hne]
  rw [h1]
  have h2 : l.reverse.takeWhile (fun c => decide (c ≠ '/')) = l.reverse := by
    apply takeWhile_eq_self_of_all
    intro x hx
    simp only [List.mem_reverse] at hx
    have hne : x ≠ '/' := fun he => h (he ▸ hx)
    simp [hne]
  rw [h2, List.reverse_reverse]

lemma nameStem_append_md (bl : List Char) (h : 1 ≤ bl.length) :
    nameStem (String.mk (bl ++ ['.', 'm', 'd'])) = String.mk bl := by
  have h1 : (String.mk (bl ++ ['.', 'm', 'd'])).toList = bl ++ ['.', 'm', 'd'] := rfl
  unfold nameStem
  rw [h1]
  have hfind : (bl ++ ['.', 'm', 'd']).reverse.findIdx? (· == '.') = some 2 := by
    rw [List.reverse_append]
    simp [List.findIdx?_cons]
  rw [hfind]
  show (if 1 ≤ (bl ++ ['.', 'm', 'd']).length - 1 - 2 ∧ 1 ≤ 2 then
      String.mk ((bl ++ ['.', 'm', 'd']).take ((bl ++ ['.', 'm', 'd']).length - 1 - 2))
    else String.mk (bl ++ ['.', 'm', 'd'])) = String.mk bl
  have hl : (bl ++ ['.', 'm', 'd']).length - 1 - 2 = bl.length := by simp
  rw [hl]
  rw [if_pos ⟨h, by omega⟩]
  rw [List.take_left]

lemma pathStem_append_md (b : String) (hb : b ≠ "") (hs : '/' ∉ b.toList) :
    pathStem (b ++ ".md") = b := by
  have htl : (b ++ ".md").toList = b.toList ++ ['.', 'm', 'd'] := by
    simp [String.toList, String.data_append]
  have hlast : lastComponent (b ++ ".md").toList = b.toList ++ ['.', 'm', 'd'] := by
    rw [htl]
    apply lastComponent_no_slash
    intro hmem
    rcases List.mem_append.mp hmem with hmem | hmem
    · exact hs hmem
    · simp at hmem
  have hnonnil : b.toList ≠ [] := fun hnil => hb (by
    have hbm : b = String.mk b.toList := rfl
    rw [hbm, hnil])
  have hlen : 1 ≤ b.toList.length := by
    cases hl : b.toList with
    | nil => exact absurd hl hnonnil
    | cons c t => simp
  unfold pathStem pathName
  rw [hlast, nameStem_append_md b.toList hlen]
  rfl

/-- C6: output naming policy of `resolve_output_path`: the default name is
the source's stem plus `.md`; an explicit name lacking `.md` gets it
appended (one ending in `.md` is kept); with `overwrite = true`, or when
the target does not exist, the resolved name is used verbatim; when the
target `b.md` exists and `overwrite = false`, the epoch-seconds timestamp
is inserted before `.md`, giving `b_<time>.md`. -/
theorem resolve_output_naming (fs : FS) (sn sp : String) (od ofn : Option String)
    (ow b64 : Bool)
    (hE : fs.dirExists (outDirOf fs sp od b64) = true)
    (hW : fs.dirWritable (outDirOf fs sp od b64) = true) :
    (truthy ofn = none → mdNameOf sn ofn = pathStem sn ++ ".md") ∧
    (∀ n, truthy ofn = some n →
      (strEndsWith n ".md" = false → mdNameOf sn ofn = n ++ ".md") ∧
      (strEndsWith n ".md" = true → mdNameOf sn ofn = n)) ∧
    (ow = true →
      resolve_output_path fs sn sp od ofn ow b64 =
        .ok (outDirOf fs sp od b64, mdNameOf sn ofn)) ∧
    (fs.fileExists (joinPath (outDirOf fs sp od b64) (mdNameOf sn ofn)) = false →
      resolve_output_path fs sn sp od ofn ow b64 =
        .ok (outDirOf fs sp od b64, mdNameOf sn ofn)) ∧
    (∀ b, b ≠ "" → '/' ∉ b.toList → mdNameOf sn ofn = b ++ ".md" →
      fs.fileExists (joinPath (outDirOf fs sp od b64) (mdNameOf sn ofn)) = true →
      ow = false →
      resolve_output_path fs sn sp od ofn ow b64 =
        .ok (outDirOf fs sp od b64, b ++ "_" ++ toString fs.time ++ ".md")) := by
  refine ⟨?_, ?_, ?_, ?_, ?_⟩
  · intro h
    simp [mdNameOf, h]
  · intro n h
    constructor <;> intro h2 <;> simp [mdNameOf, h, h2]
  · intro h
    subst h
    simp [resolve_output_path, hE, hW]
  · intro h
    simp [resolve_output_path, hE, hW, h]
  · intro b hb hslash heq hex how
    subst how
    rw [heq] at hex
    simp [resolve_output_path, hE, hW, hex, heq, pathStem_append_md b hb hslash]

/-- Witness for C6: a base64 source `encoded.pdf` defaults to
`encoded.md` in the working directory, and when that name exists without
`overwrite`, the epoch timestamp is inserted before `.md`; a path source
`doc.pdf` with a free target resolves to `doc.md` beside the source. -/
theorem resolve_output_naming_witness :
    resolve_output_path fsAfter "encoded.pdf" "/src" none none false true =
      .ok ("/cwd", "encoded_1700000123.md") ∧
    resolve_output_path fsBase "doc.pdf" "/src" none none false false =
      .ok ("/src", "doc.md") := by
  constructor
  · have h := (resolve_output_naming fsAfter "encoded.pdf" "/src" none none false true
      rfl rfl).2.2.2.2 "encoded" (by decide) (by decide) (by decide) rfl rfl
    rw [h]
    rfl
  · have h := (resolve_output_naming fsBase "doc.pdf" "/src" none none false false
      rfl rfl).2.2.2.1 rfl
    rw [h]
    rfl

lemma replaceAllGo_length (pat rep : List Char) (hrep : rep.length ≤ pat.length) :
    ∀ (s : List Char) (k : Nat), (replaceAllGo pat rep s k).length ≤ s.length - k := by
  intro s
  induction s with
  | nil => intro k; simp [replaceAllGo]
  | cons c t ih =>
    intro k
    cases k with
    | succ k =>
      simp only [replaceAllGo]
      have := ih k
      simp only [List.length_cons]
      omega
    | zero =>
      simp only [replaceAllGo]
      split
      · next h =>
        have hpl : pat.length ≤ t.length + 1 := by
          have := (List.isPrefixOf_iff_prefix.mp h.2).length_le
          simpa using this
        have hpos : 1 ≤ pat.length := List.length_pos.mpr h.1
        have := ih (pat.length - 1)
        simp only [List.length_append, List.length_cons]
        omega
      · next h =>
        have := ih 0
        simp only [List.length_cons]
        omega

lemma replaceAllGo_length_lt (pat rep : List Char) (hrep : rep.length < pat.length)
    (hpat : pat ≠ []) :
    ∀ s : List Char, containsL pat s = true →
      (replaceAllGo pat rep s 0).length < s.length := by
  intro s
  induction s with
  | nil =>
    intro h
    simp [containsL, List.isEmpty_iff] at h
    exact absurd h hpat
  | cons c t ih =>
    intro h
    simp only [replaceAllGo]
    split
    · next hc =>
      have hpl : pat.length ≤ t.length + 1 := by
        have := (List.isPrefixOf_iff_prefix.mp hc.2).length_le
        simpa using this
      have hpos : 1 ≤ pat.length := List.length_pos.mpr hpat
      have hrec := replaceAllGo_length pat rep (le_of_lt hrep) t (pat.length - 1)
      simp only [List.length_append, List.length_cons]
      omega
    · next hc =>
      have hpre : pat.isPrefixOf (c :: t) = false := by
        by_cases hp : pat.isPrefixOf (c :: t) = true
        · exact absurd ⟨hpat, hp⟩ hc
        · rwa [Bool.not_eq_true] at hp
      simp only [containsL, hpre, Bool.false_or] at h
      have := ih h
      simp only [List.length_cons]
      omega

lemma collapseBlank_no_pattern :
    ∀ (fuel : Nat) (s : List Char), s.length ≤ fuel →
      containsL nl4 (collapseBlank fuel s) = false := by
  intro fuel
  induction fuel with
  | zero =>
    intro s hs
    have : s = [] := List.length_eq_zero.mp (Nat.le_zero.mp hs)
    subst this
    decide
  | succ f ih =>
    intro s hs
    simp only [collapseBlank]
    split
    · next h =>
      apply ih
      have hlt := replaceAllGo_length_lt nl4 nl3 (by decide) (by decide) s h
      have : replaceAllL nl4 nl3 s = replaceAllGo nl4 nl3 s 0 := rfl
      rw [this]
      omega
    · next h =>
      simpa using h

/-- The DOCX document with one empty paragraph between two non-empty
paragraphs. -/
def singleGapDoc : DocxDoc :=
  ⟨[.p ⟨"Normal", [⟨"a", false, false, false, none⟩], [], none⟩,
    .p ⟨"Normal", [], [], none⟩,
    .p ⟨"Normal", [⟨"b", false, false, false, none⟩], [], none⟩], [], [], [], 1⟩

/-- C3 counterexample: one empty paragraph between paragraphs "a" and "b"
collapses to `"a\n\n\nb"` — three consecutive newlines (two blank lines),
where the claim allows at most two newlines (one blank line). -/
theorem docx_collapse_leaves_three_newlines :
    docxBodyChars singleGapDoc = "a\n\n\nb".toList ∧
    containsL nl3 (docxBodyChars singleGapDoc) = true := by decide

/-- C3 (amended): after blank-line collapsing the DOCX body never
contains four consecutive newlines — runs of three (two blank lines) can
remain, since the loop only rewrites `"\n\n\n\n"` to `"\n\n\n"`. -/
theorem docx_body_collapse_bound (d : DocxDoc) :
    containsL nl4 (docxBodyChars d) = false := by
  unfold docxBodyChars
  exact collapseBlank_no_pattern _ _ le_rfl

lemma pdf_foldl_sections (l : List (Nat × PdfPage)) :
    ∀ acc : List String × Nat × List String,
      (l.foldl pdfStep acc).1 =
        acc.1 ++ l.map (fun ip => (pdfPageSection (ip.1 + 1) ip.2).1) := by
  induction l with
  | nil => intro acc; simp
  | cons ip t ih =>
    intro acc
    rw [List.foldl_cons, ih]
    simp [pdfStep, List.append_assoc]

/-- C9: the PDF body consists of one section per page, in page order, the
section of the `i`-th page (0-based) opening with the 1-based HTML comment
marker `<!-- Page i+1 -->` followed by its content, the sections joined by
the blank-line-delimited horizontal-rule separator; a successful
conversion of a `K`-page document reports `page_count = K` in metadata. -/
theorem pdf_page_markers (pages : List PdfPage) (fs : FS)
    (fp b64 fn od ofn : Option String) (ow : Bool) (src sn : String)
    (tmp : Option String) (out : String × String)
    (hsrc : resolve_source_file fs fp b64 fn = .ok (src, sn, tmp))
    (hopen : fs.openPdf src = .ok pages)
    (hout : resolve_output_path fs sn (fs.parentDir src) od ofn ow b64.isSome = .ok out)
    (hwrite : fs.writeErr (joinPath out.1 out.2) = none) :
    (pdfWalk pages).1 = pages.enum.map (fun ip =>
      "<!-- Page " ++ toString (ip.1 + 1) ++ " -->\n\n" ++ pdfPageBody (ip.1 + 1) ip.2) ∧
    (pdfWalk pages).1.length = pages.length ∧
    pdfBody pages = joinSep "\n\n---\n\n" (pdfWalk pages).1 ∧
    (convert_pdf_to_markdown fs fp b64 fn od ofn ow).metadata =
      some (build_metadata "pdf" (some pages.length) none
        (count_words (pdfBody pages)) (decide ((pdfWalk pages).2.1 > 0))
        (pdfWalk pages).2.1 (pdfWalk pages).2.2) := by
  refine ⟨?_, ?_, rfl, ?_⟩
  · rw [pdfWalk, pdf_foldl_sections]
    simp [pdfPageSection]
  · rw [pdfWalk, pdf_foldl_sections]
    simp
  · simp [convert_pdf_to_markdown, pdfPipeline, hsrc, hopen, hout, hwrite,
      Except.bind, bind, pdfBody]

/-- A two-page plain-text PDF document. -/
def demoPages : List PdfPage :=
  [⟨"Page one text", 0, []⟩, ⟨"Page two text", 0, []⟩]

/-- A filesystem whose PDF parser yields the two-page document. -/
def fsPdf : FS :=
  { fsBase with openPdf := fun _ => .ok demoPages }

/-- Witness for C9: the two-page demo document yields exactly two marked
sections and `page_count = 2` in the reported metadata. -/
theorem pdf_page_markers_witness :
    (pdfWalk demoPages).1.length = 2 ∧
    (convert_pdf_to_markdown fsPdf (some "a.pdf") none none none none false).metadata =
      some (build_metadata "pdf" (some 2) none 15 false 0 []) := by
  have h := pdf_page_markers demoPages fsPdf (some "a.pdf") none none none none false
    "a.pdf" "a.pdf" none ("/src", "a.md") rfl rfl rfl rfl
  constructor
  · rw [h.2.1]
    rfl
  · rw [h.2.2.2]
    decide

/-- A slide whose only shape is a plain (non-placeholder) text box. -/
def fallbackSlide : Slide :=
  ⟨[.mk (some [⟨"Hello", 0⟩]) .otherKind none none false "TextBox 1" []], none⟩

/-- C4 counterexample: the plain text box supplies the fallback title
"Hello", but only index-0 placeholders are skipped by the body loop, so
the same text is emitted again in the body: "Hello" occurs twice in the
slide's output, where the claim says the title shape's text never appears
twice. -/
theorem pptx_fallback_title_duplicated :
    (processSlide 1 fallbackSlide 0).1 = "## Slide 1: Hello\n\nHello\n" ∧
    countOccL "Hello".toList ((processSlide 1 fallbackSlide 0).1).toList = 2 := by
  constructor <;>
    (simp [processSlide, slideBody, slideStep, slideTitle, slideTitle0, fallbackTitle,
      shapeToMarkdown, isSkipped, isTitlePlaceholder, notesLines, fallbackSlide]; decide)

lemma slideBody_eq_filter_foldl (l : List Shape) :
    ∀ acc : List String × Nat,
      l.foldl (fun acc s => if isSkipped s then acc else slideStep acc s) acc =
        (l.filter (fun s => !isSkipped s)).foldl slideStep acc := by
  induction l with
  | nil => intro acc; simp
  | cons a t ih =>
    intro acc
    rw [List.foldl_cons, List.filter_cons]
    by_cases h : isSkipped a
    · simp [h, ih acc]
    · simp [h, ih (slideStep acc a), List.foldl_cons]

/-- C4 (amended): the slide title is the stripped text of the first
index-0 text-frame placeholder when non-empty, else the stripped text of
the first shape with a non-empty text frame; the heading is
`## Slide N: <title>` (`## Slide N` when no title); but the body loop
excludes exactly the shapes having a text frame and placeholder index 0 —
a fallback title shape that is not such a placeholder is processed again,
so its text appears in both the heading and the body. -/
theorem pptx_slide_title_heading (sl : Slide) (n ctr : Nat) :
    (∀ s, sl.shapes.find? isTitlePlaceholder = some s →
      pyStrip (shapeTFText s) ≠ "" →
      slideTitle sl.shapes = pyStrip (shapeTFText s)) ∧
    (sl.shapes.find? isTitlePlaceholder = none →
      slideTitle sl.shapes = fallbackTitle sl.shapes) ∧
    (∀ s, sl.shapes.find? isTitlePlaceholder = some s →
      pyStrip (shapeTFText s) = "" →
      slideTitle sl.shapes = fallbackTitle sl.shapes) ∧
    (∀ t, t ≠ "" → slideHeader n t = "## Slide " ++ toString n ++ ": " ++ t) ∧
    (slideHeader n "" = "## Slide " ++ toString n) ∧
    ((processSlide n sl ctr).1 =
      joinSep "\n" ([slideHeader n (slideTitle sl.shapes), ""] ++
        (slideBody sl.shapes ctr).1 ++ notesLines sl)) ∧
    (slideBody sl.shapes ctr =
      (sl.shapes.filter (fun s => !isSkipped s)).foldl slideStep ([], ctr)) := by
  refine ⟨?_, ?_, ?_, ?_, ?_, rfl, ?_⟩
  · intro s hf hne
    simp [slideTitle, slideTitle0, hf, hne]
  · intro hf
    simp [slideTitle, slideTitle0, hf]
  · intro s hf he
    simp [slideTitle, slideTitle0, hf, he]
  · intro t ht
    simp [slideHeader, ht]
  · simp [slideHeader]
  · exact slideBody_eq_filter_foldl sl.shapes ([], ctr)

/-- A slide with a proper index-0 title placeholder and a body text box. -/
def titledSlide : Slide :=
  ⟨[.mk (some [⟨"Presentation Title", 0⟩]) .placeholder (some 0) none false "Title 1" [],
    .mk (some [⟨"Body point", 0⟩]) .otherKind none none false "TextBox 2" []], none⟩

/-- Witness for C4 (amended): the index-0 placeholder's text becomes the
title, and the body loop runs over exactly the non-skipped shapes. -/
theorem pptx_slide_title_heading_witness :
    slideTitle titledSlide.shapes = "Presentation Title" ∧
    slideBody titledSlide.shapes 0 =
      (titledSlide.shapes.filter (fun s => !isSkipped s)).foldl slideStep ([], 0) := by
  have h := pptx_slide_title_heading titledSlide 1 0
  constructor
  · rw [h.1 (.mk (some [⟨"Presentation Title", 0⟩]) .placeholder (some 0) none false
      "Title 1" []) rfl (by decide)]
    decide
  · exact h.2.2.2.2.2.2

end Doc2md
